import Mathlib

/-
  Verification of the iDDS work-claiming and hierarchical-commit core.

  Shallow embedding of:
  - src/main/lib/idds/core/requests.py
      (update_request_with_transforms, get_requests_by_status_type, clean_locking)
  - src/main/lib/idds/orm/contents.py
      (add_content, add_contents, get_content_id, get_content)

  Parts of the repository that the claims depend on but that are not present
  under src/ (the request/transform/collection ORM modules and the
  transactional_session decorator of orm/base/session.py) are modelled from
  the specification; each such definition carries a doc comment starting
  with "Modelled from the spec:".
-/

namespace Idds

/-- Request status enum of idds.common.constants (the constants module is not
in src/; only the member names used by the core are needed, with distinct
underlying values). -/
inductive RequestStatus where
  | New
  | Locking
  | Transforming
  | Failed
  | Cancelled
deriving DecidableEq, Repr

/-- Request locking enum of idds.common.constants. -/
inductive RequestLocking where
  | Idle
  | Locking
deriving DecidableEq, Repr

/-- One row of the requests table.  `updated_at` is the timestamp (in seconds)
of the last update, which is also the time at which a lock was acquired when
`locking = Locking`.  `rest` stands for the remaining columns that the
modelled operations never inspect. -/
structure RequestRow where
  request_id : Nat
  scope : String := ""
  name : String := ""
  request_type : Nat := 0
  status : RequestStatus := RequestStatus.New
  locking : RequestLocking := RequestLocking.Idle
  priority : Nat := 0
  workload_id : Option Int := none
  updated_at : Int := 0
  rest : Nat := 0
deriving DecidableEq, Repr

/-- A parameters dictionary for a request update: present keys only. -/
structure ReqParams where
  status : Option RequestStatus := none
  locking : Option RequestLocking := none
  priority : Option Nat := none
  rest : Option Nat := none
deriving DecidableEq, Repr

/-- Modelled from the spec: the row effect of idds.orm.requests.update_request
(orm/requests.py is not in src/).  The provided fields are written and
`updated_at` is stamped with the current time, as in the contents ORM update
shown in src/main/lib/idds/orm/contents.py. -/
def applyReqParams (now : Int) (p : ReqParams) (r : RequestRow) : RequestRow :=
  { r with
    status := p.status.getD r.status
    locking := p.locking.getD r.locking
    priority := p.priority.getD r.priority
    rest := p.rest.getD r.rest
    updated_at := now }

/-- Modelled from the spec: idds.orm.requests.update_request
(orm/requests.py is not in src/): a point field update of the request
identified by `request_id`. -/
def orm_update_request (now : Int) (request_id : Nat) (parameters : ReqParams)
    (store : List RequestRow) : List RequestRow :=
  store.map (fun r => if r.request_id = request_id then applyReqParams now parameters r else r)

/-- Modelled from the spec: the select of
idds.orm.requests.get_requests_by_status_type (orm/requests.py is not in
src/).  Spec section 4.1: selects requests whose status is in the given set,
optionally filtered by type and by "last updated more than time_period
seconds ago", capped at bulk_size rows; per spec section 9 a claiming select
(locking = true) only picks rows whose locking field is Idle. -/
def orm_get_requests_by_status_type (now : Int) (status : List RequestStatus)
    (request_type : Option Nat) (time_period : Option Int) (locking : Bool)
    (bulk_size : Option Nat) (store : List RequestRow) : List RequestRow :=
  let matched := store.filter (fun r =>
    decide (r.status ∈ status)
    && (match request_type with
        | none => true
        | some t => decide (r.request_type = t))
    && (match time_period with
        | none => true
        | some p => decide (r.updated_at + p < now))
    && (if locking then decide (r.locking = RequestLocking.Idle) else true))
  match bulk_size with
  | none => matched
  | some b => matched.take b

/-- Embedding of idds.core.requests.get_requests_by_status_type
(src/main/lib/idds/core/requests.py lines 149-167): read the matching rows,
then, if `locking` is set, update the locking field of every returned row to
Locking; the pre-update rows are returned.  Returns (returned rows, store
after the call). -/
def get_requests_by_status_type (now : Int) (status : List RequestStatus)
    (request_type : Option Nat) (time_period : Option Int) (locking : Bool)
    (bulk_size : Option Nat) (store : List RequestRow) :
    List RequestRow × List RequestRow :=
  let reqs := orm_get_requests_by_status_type now status request_type time_period
    locking bulk_size store
  let store' :=
    if locking then
      reqs.foldl
        (fun st r =>
          orm_update_request now r.request_id { locking := some RequestLocking.Locking } st)
        store
    else store
  (reqs, store')

/-- Modelled from the spec: idds.orm.requests.clean_locking (orm/requests.py
is not in src/), called by idds.core.requests.clean_locking
(src/main/lib/idds/core/requests.py lines 170-177): resets the locking field
to Idle for the requests that are Locking and were locked more than
time_period seconds ago; no other row or field is touched. -/
def orm_clean_locking (now : Int) (time_period : Int)
    (store : List RequestRow) : List RequestRow :=
  store.map (fun r =>
    if r.locking = RequestLocking.Locking && decide (r.updated_at + time_period < now) then
      { r with locking := RequestLocking.Idle }
    else r)

/-- Embedding of idds.core.requests.clean_locking
(src/main/lib/idds/core/requests.py lines 170-177): delegates to the ORM
sweep inside one transaction. -/
def clean_locking (now : Int) (time_period : Int)
    (store : List RequestRow) : List RequestRow :=
  orm_clean_locking now time_period store

/-- The possible values of the transform_metadata entry of a transform
dictionary passed to update_request_with_transforms: the key may be absent,
may hold None, or may hold a metadata dictionary (string keys, here mapped
to integer values, which is all the core reads: the workload_id entry). -/
inductive PyMeta where
  | noKey
  | pyNone
  | dict (entries : List (String × Int))
deriving DecidableEq, Repr

/-- The coll_metadata dictionary built by update_request_with_transforms for
an output collection (src/main/lib/idds/core/requests.py lines 135-138). -/
structure CollMeta where
  transform_id : Nat
  workload_id : Option Int
  input_collections : List Nat
  log_collections : List Nat
deriving DecidableEq, Repr

/-- A collection dictionary from a transform's collections payload.  `tag`
stands for all remaining keys (scope, name, ...), which the core passes
through untouched. -/
structure CollPayload where
  transform_id : Option Nat := none
  coll_metadata : Option CollMeta := none
  tag : Nat := 0
deriving DecidableEq, Repr

/-- The collections dictionary of a transform to add.  A field holding
`none` means the corresponding key is absent from the dictionary;
`extra_keys` counts any further keys (they contribute to the dictionary's
Python length). -/
structure CollectionsDict where
  input_collections : Option (List CollPayload) := none
  output_collections : Option (List CollPayload) := none
  log_collections : Option (List CollPayload) := none
  extra_keys : Nat := 0
deriving DecidableEq, Repr

/-- Python len() of a collections dictionary: the number of present keys. -/
def CollectionsDict.pyLen (cd : CollectionsDict) : Nat :=
  (if cd.input_collections.isSome then 1 else 0)
  + (if cd.output_collections.isSome then 1 else 0)
  + (if cd.log_collections.isSome then 1 else 0)
  + cd.extra_keys

/-- A transform dictionary from transforms_to_add.  `collections = none`
means the transform has no collections key.  `tag` stands for the remaining
transform keys. -/
structure TransformToAdd where
  collections : Option CollectionsDict := none
  transform_metadata : PyMeta := PyMeta.noKey
  tag : Nat := 0
deriving DecidableEq, Repr

/-- A transform dictionary from transforms_to_extend: its transform_id is
popped and the remaining keys (here `params`) form the update payload. -/
structure TransformToExtend where
  transform_id : Nat
  params : Nat := 0
deriving DecidableEq, Repr

/-- One row of the transforms table. -/
structure TransformRow where
  transform_id : Nat
  transform_metadata : PyMeta := PyMeta.noKey
  tag : Nat := 0
  params : Nat := 0
deriving DecidableEq, Repr

/-- One row of the collections table. -/
structure CollRow where
  coll_id : Nat
  transform_id : Option Nat := none
  coll_metadata : Option CollMeta := none
  tag : Nat := 0
deriving DecidableEq, Repr

/-- The backend-held state touched by the hierarchical commit protocol.
`next_id` is the next server-generated identifier. -/
structure Store where
  requests : List RequestRow := []
  transforms : List TransformRow := []
  collections : List CollRow := []
  next_id : Nat := 1
deriving DecidableEq, Repr

/-- One SQL statement issued inside a session, tagged with the payload it
came from. -/
inductive Stmt where
  | insertTransform (tag : Nat)
  | insertCollection (tag : Nat)
  | updateTransform (transform_id : Nat)
  | updateRequest (request_id : Nat)
deriving DecidableEq, Repr

/-- A database session: the uncommitted working store plus the list of
statements issued so far in this session (oldest first). -/
structure SessionState where
  store : Store
  stmts : List Stmt := []
deriving DecidableEq, Repr

/-- Errors raised by the embedded operations.  wrongParameter,
duplicatedObject, databaseException and noObject are the typed idds
exceptions; keyError, typeError and valueError are untyped Python errors. -/
inductive IddsErr where
  | wrongParameter (msg : String)
  | duplicatedObject (msg : String)
  | databaseException (msg : String)
  | noObject (msg : String)
  | keyError (key : String)
  | typeError (msg : String)
  | valueError (msg : String)
deriving DecidableEq, Repr

/-- An error reported by the storage backend on one statement: an integrity
(uniqueness) violation or a generic database error. -/
inductive BackendErr where
  | integrity (msg : String)
  | database (msg : String)
deriving DecidableEq, Repr

/-- Outcome of running session code: a value or a raised exception, in both
cases together with the session as it stands at that point (the issued
statements survive the exception; whether the store changes persist is
decided by the transaction wrapper). -/
inductive Res (α : Type) where
  | ok (a : α) (s : SessionState)
  | err (e : IddsErr) (s : SessionState)
deriving DecidableEq, Repr

/-- A fault oracle for the backend: the outcome of the n-th statement of the
session (counting from 0); `none` means the statement succeeds. -/
def noFaults : Nat → Option BackendErr := fun _ => none

/-- Modelled from the spec: idds.orm.transforms.add_transform
(orm/transforms.py is not in src/): one insert statement; an integrity error
surfaces as DuplicatedObject, a generic database error as DatabaseException,
otherwise the row is inserted and its generated id returned. -/
def orm_add_transform (faults : Nat → Option BackendErr) (md : PyMeta) (tag : Nat)
    (s : SessionState) : Res Nat :=
  let s1 : SessionState := { s with stmts := s.stmts ++ [Stmt.insertTransform tag] }
  match faults s.stmts.length with
  | some (BackendErr.integrity m) =>
    Res.err (IddsErr.duplicatedObject ("Transform already exists!: " ++ m)) s1
  | some (BackendErr.database m) => Res.err (IddsErr.databaseException m) s1
  | none =>
    let tid := s.store.next_id
    Res.ok tid
      { s1 with store :=
        { s1.store with
          transforms := s1.store.transforms
            ++ [{ transform_id := tid, transform_metadata := md, tag := tag }],
          next_id := tid + 1 } }

/-- Modelled from the spec: idds.orm.collections.add_collection
(orm/collections.py is not in src/): one insert statement; an integrity
error surfaces as DuplicatedObject, a generic database error as
DatabaseException, otherwise the row is inserted and its generated id
returned. -/
def orm_add_collection (faults : Nat → Option BackendErr) (c : CollPayload)
    (s : SessionState) : Res Nat :=
  let s1 : SessionState := { s with stmts := s.stmts ++ [Stmt.insertCollection c.tag] }
  match faults s.stmts.length with
  | some (BackendErr.integrity m) =>
    Res.err (IddsErr.duplicatedObject ("Collection already exists!: " ++ m)) s1
  | some (BackendErr.database m) => Res.err (IddsErr.databaseException m) s1
  | none =>
    let cid := s.store.next_id
    Res.ok cid
      { s1 with store :=
        { s1.store with
          collections := s1.store.collections
            ++ [{ coll_id := cid, transform_id := c.transform_id,
                  coll_metadata := c.coll_metadata, tag := c.tag }],
          next_id := cid + 1 } }

/-- Modelled from the spec: idds.orm.transforms.update_transform
(orm/transforms.py is not in src/): one update statement on the transform
row identified by transform_id. -/
def orm_update_transform (faults : Nat → Option BackendErr) (tid : Nat) (params : Nat)
    (s : SessionState) : Res Unit :=
  let s1 : SessionState := { s with stmts := s.stmts ++ [Stmt.updateTransform tid] }
  match faults s.stmts.length with
  | some (BackendErr.integrity m) =>
    Res.err (IddsErr.duplicatedObject ("Transform already exists!: " ++ m)) s1
  | some (BackendErr.database m) => Res.err (IddsErr.databaseException m) s1
  | none =>
    Res.ok ()
      { s1 with store :=
        { s1.store with
          transforms := s1.store.transforms.map
            (fun t => if t.transform_id = tid then { t with params := params } else t) } }

/-- The request update issued at the end of update_request_with_transforms:
one update statement applying the request parameters. -/
def orm_update_request_in_session (faults : Nat → Option BackendErr) (now : Int)
    (request_id : Nat) (parameters : ReqParams) (s : SessionState) : Res Unit :=
  let s1 : SessionState := { s with stmts := s.stmts ++ [Stmt.updateRequest request_id] }
  match faults s.stmts.length with
  | some (BackendErr.integrity m) =>
    Res.err (IddsErr.duplicatedObject ("Request already exists!: " ++ m)) s1
  | some (BackendErr.database m) => Res.err (IddsErr.databaseException m) s1
  | none =>
    Res.ok ()
      { s1 with store :=
        { s1.store with
          requests := orm_update_request now request_id parameters s1.store.requests } }

/-- The validation message of update_request_with_transforms
(src/main/lib/idds/core/requests.py line 115). -/
def validationMsg : String :=
  "Transform must have collections, such as input collection, output collection and log collection"

/-- The workload_id read performed for each output collection
(src/main/lib/idds/core/requests.py line 134):
transform's transform_metadata entry is subscripted; a missing key raises
KeyError, a None value raises TypeError on the containment test. -/
def workloadLookup : PyMeta → Except IddsErr (Option Int)
  | PyMeta.noKey => Except.error (IddsErr.keyError "transform_metadata")
  | PyMeta.pyNone =>
    Except.error (IddsErr.typeError "argument of type NoneType is not iterable")
  | PyMeta.dict m => Except.ok (m.lookup "workload_id")

/-- The loop inserting input or log collections: each collection is stamped
with the transform id, inserted, and its generated id collected in order
(src/main/lib/idds/core/requests.py lines 124-131). -/
def addCollectionsLoop (faults : Nat → Option BackendErr) (tid : Nat) :
    List CollPayload → SessionState → Res (List Nat)
  | [], s => Res.ok [] s
  | c :: cs, s =>
    match orm_add_collection faults { c with transform_id := some tid } s with
    | Res.err e s' => Res.err e s'
    | Res.ok cid s' =>
      match addCollectionsLoop faults tid cs s' with
      | Res.err e s'' => Res.err e s''
      | Res.ok cids s'' => Res.ok (cid :: cids) s''

/-- The loop inserting output collections: each collection is stamped with
the transform id and with the built coll_metadata, after the workload_id
read (src/main/lib/idds/core/requests.py lines 132-139). -/
def addOutputCollectionsLoop (faults : Nat → Option BackendErr) (tid : Nat)
    (md : PyMeta) (inIds logIds : List Nat) :
    List CollPayload → SessionState → Res Unit
  | [], s => Res.ok () s
  | c :: cs, s =>
    match workloadLookup md with
    | Except.error e => Res.err e s
    | Except.ok wl =>
      match orm_add_collection faults
          { c with transform_id := some tid,
                   coll_metadata := some ⟨tid, wl, inIds, logIds⟩ } s with
      | Res.err e s' => Res.err e s'
      | Res.ok _ s' => addOutputCollectionsLoop faults tid md inIds logIds cs s'

/-- Processing of one entry of transforms_to_add
(src/main/lib/idds/core/requests.py lines 113-139): validate the collections
payload, insert the transform, insert its input and log collections
collecting their ids, then insert its output collections with the built
coll_metadata. -/
def processTransformToAdd (faults : Nat → Option BackendErr) (t : TransformToAdd)
    (s : SessionState) : Res Unit :=
  match t.collections with
  | none => Res.err (IddsErr.wrongParameter validationMsg) s
  | some cd =>
    if cd.pyLen = 0 then Res.err (IddsErr.wrongParameter validationMsg) s
    else
      match orm_add_transform faults t.transform_metadata t.tag s with
      | Res.err e s' => Res.err e s'
      | Res.ok tid s' =>
        match cd.input_collections with
        | none => Res.err (IddsErr.keyError "input_collections") s'
        | some ins =>
          match addCollectionsLoop faults tid ins s' with
          | Res.err e s2 => Res.err e s2
          | Res.ok inIds s2 =>
            match cd.log_collections with
            | none => Res.err (IddsErr.keyError "log_collections") s2
            | some logs =>
              match addCollectionsLoop faults tid logs s2 with
              | Res.err e s3 => Res.err e s3
              | Res.ok logIds s3 =>
                match cd.output_collections with
                | none => Res.err (IddsErr.keyError "output_collections") s3
                | some outs =>
                  addOutputCollectionsLoop faults tid t.transform_metadata inIds logIds outs s3

/-- The loop over transforms_to_add. -/
def processTransformsToAdd (faults : Nat → Option BackendErr) :
    List TransformToAdd → SessionState → Res Unit
  | [], s => Res.ok () s
  | t :: ts, s =>
    match processTransformToAdd faults t s with
    | Res.err e s' => Res.err e s'
    | Res.ok _ s' => processTransformsToAdd faults ts s'

/-- The loop over transforms_to_extend
(src/main/lib/idds/core/requests.py lines 141-145). -/
def processTransformsToExtend (faults : Nat → Option BackendErr) :
    List TransformToExtend → SessionState → Res Unit
  | [], s => Res.ok () s
  | t :: ts, s =>
    match orm_update_transform faults t.transform_id t.params s with
    | Res.err e s' => Res.err e s'
    | Res.ok _ s' => processTransformsToExtend faults ts s'

/-- The body of update_request_with_transforms
(src/main/lib/idds/core/requests.py lines 103-146), run inside one session:
phase 1 adds the new transforms with their collections, phase 2 extends the
existing transforms, phase 3 updates the request. -/
def update_request_with_transforms_body (faults : Nat → Option BackendErr)
    (now : Int) (request_id : Nat) (parameters : ReqParams)
    (tta : List TransformToAdd) (tte : List TransformToExtend)
    (s : SessionState) : Res Unit :=
  match processTransformsToAdd faults tta s with
  | Res.err e s' => Res.err e s'
  | Res.ok _ s' =>
    match processTransformsToExtend faults tte s' with
    | Res.err e s'' => Res.err e s''
    | Res.ok _ s'' => orm_update_request_in_session faults now request_id parameters s''

/-- Modelled from the spec: the transactional_session decorator of
idds.orm.base.session (orm/base/session.py is not in src/): the body runs in
one fresh session/transaction; on success the working store is committed, on
any raised exception every statement of the call is rolled back and the
caller observes the store as it was before the call.  Returns (outcome,
store visible after the call, statements issued during the call). -/
def runTransactional {α : Type} (body : SessionState → Res α) (store : Store) :
    Except IddsErr α × Store × List Stmt :=
  match body { store := store, stmts := [] } with
  | Res.ok a s => (Except.ok a, s.store, s.stmts)
  | Res.err e s => (Except.error e, store, s.stmts)

/-- Embedding of idds.core.requests.update_request_with_transforms
(src/main/lib/idds/core/requests.py lines 103-146) with its transactional
wrapper.  `faults` injects backend errors per issued statement; `now` is the
current time used for the update timestamps. -/
def update_request_with_transforms (faults : Nat → Option BackendErr) (now : Int)
    (request_id : Nat) (parameters : ReqParams) (tta : List TransformToAdd)
    (tte : List TransformToExtend) (store : Store) :
    Except IddsErr Unit × Store × List Stmt :=
  runTransactional
    (update_request_with_transforms_body faults now request_id parameters tta tte) store

/-- Content type enum of idds.common.constants (the constants module is not
in src/); File is the unranged case, the other members stand for the ranged
types; only distinctness of the underlying values matters. -/
inductive ContentType where
  | File
  | Event
  | PseudoContent
deriving DecidableEq, Repr

/-- The integer storage value of a content type. -/
def ContentType.value : ContentType → Nat
  | ContentType.File => 0
  | ContentType.Event => 1
  | ContentType.PseudoContent => 2

/-- The enum reconstruction ContentType(value); an unknown value has no
member (Python would raise ValueError). -/
def contentTypeFromValue (v : Nat) : Option ContentType :=
  if v = 0 then some ContentType.File
  else if v = 1 then some ContentType.Event
  else if v = 2 then some ContentType.PseudoContent
  else none

/-- Content status enum of idds.common.constants. -/
inductive ContentStatus where
  | New
  | Processing
  | Available
  | Failed
deriving DecidableEq, Repr

/-- The integer storage value of a content status. -/
def ContentStatus.value : ContentStatus → Nat
  | ContentStatus.New => 0
  | ContentStatus.Processing => 1
  | ContentStatus.Available => 2
  | ContentStatus.Failed => 3

/-- The enum reconstruction ContentStatus(value). -/
def contentStatusFromValue (v : Nat) : Option ContentStatus :=
  if v = 0 then some ContentStatus.New
  else if v = 1 then some ContentStatus.Processing
  else if v = 2 then some ContentStatus.Available
  else if v = 3 then some ContentStatus.Failed
  else none

/-- A free-form metadata value: a JSON object mapping string keys to integer
values (the shapes the modelled operations move around without inspecting).
-/
inductive Meta where
  | obj (entries : List (String × Int))
deriving DecidableEq, Repr

/-- Python truthiness of a metadata value: an empty object is falsy. -/
def Meta.truthy : Meta → Bool
  | Meta.obj [] => false
  | Meta.obj (_ :: _) => true

/-- Modelled from the spec: the textual encoding produced by json.dumps of
the standard json library (external to the repository).  The encoded text is
represented by this wrapper, so that json.loads is its exact inverse, which
is the round-trip property of the library on these values. -/
structure JsonText where
  parsed : Meta
deriving DecidableEq, Repr

/-- Modelled from the spec: json.dumps (external library). -/
def jdumps (m : Meta) : JsonText := ⟨m⟩

/-- Modelled from the spec: json.loads (external library). -/
def jloads (t : JsonText) : Meta := t.parsed

/-- What the content_metadata column can hold after the write-side
conversion: NULL, a raw (falsy, hence never serialized) value, or a
serialized text. -/
inductive StoredMeta where
  | null
  | raw (m : Meta)
  | text (t : JsonText)
deriving DecidableEq, Repr

/-- The write-side conversion of add_content
(src/main/lib/idds/orm/contents.py lines 63-64): a truthy metadata value is
serialized, None and falsy values pass through. -/
def storeMeta : Option Meta → StoredMeta
  | none => StoredMeta.null
  | some m => if m.truthy then StoredMeta.text (jdumps m) else StoredMeta.raw m

/-- The read-side conversion of get_content
(src/main/lib/idds/orm/contents.py lines 290-291): a truthy stored value is
parsed, NULL and falsy values pass through. -/
def readMeta : StoredMeta → Option Meta
  | StoredMeta.null => none
  | StoredMeta.raw m => some m
  | StoredMeta.text t => some (jloads t)

/-- One row of the contents table, in storage representation (enum fields as
integer values, metadata as stored). -/
structure ContentRow where
  content_id : Nat
  coll_id : Option Nat := none
  scope : Option String := none
  name : Option String := none
  min_id : Option Int := none
  max_id : Option Int := none
  content_type : Option Nat := none
  status : Option Nat := none
  bytes : Int := 0
  md5 : Option String := none
  adler32 : Option String := none
  processing_id : Option Nat := none
  storage_id : Option Nat := none
  retries : Nat := 0
  path : Option String := none
  expired_at : Option Int := none
  content_metadata : StoredMeta := StoredMeta.null
deriving DecidableEq, Repr

/-- The contents backend state: rows, the next generated identifier, and the
log of insert statements issued (one entry per execute, holding the rows it
inserted). -/
structure CStore where
  rows : List ContentRow := []
  next_id : Nat := 1
  executed : List (List ContentRow) := []
deriving DecidableEq, Repr

/-- Embedding of idds.orm.contents.add_content
(src/main/lib/idds/orm/contents.py lines 30-111): convert the enum fields to
their values and serialize truthy metadata, then issue one insert; a backend
integrity error is re-raised as DuplicatedObject with the key in the
message, a generic database error as DatabaseException.  `fault` is the
outcome of the single insert statement. -/
def add_content (fault : Option BackendErr) (coll_id : Nat) (scope name : String)
    (min_id max_id : Option Int) (content_type : ContentType)
    (status : ContentStatus) (bytes : Int) (md5 adler32 : Option String)
    (processing_id storage_id : Option Nat) (retries : Nat)
    (path : Option String) (expired_at : Option Int)
    (content_metadata : Option Meta) (returning_id : Bool) (st : CStore) :
    Except IddsErr (Option Nat × CStore) :=
  let row : ContentRow :=
    { content_id := st.next_id, coll_id := some coll_id, scope := some scope,
      name := some name, min_id := min_id, max_id := max_id,
      content_type := some content_type.value, status := some status.value,
      bytes := bytes, md5 := md5, adler32 := adler32,
      processing_id := processing_id, storage_id := storage_id,
      retries := retries, path := path, expired_at := expired_at,
      content_metadata := storeMeta content_metadata }
  match fault with
  | some (BackendErr.integrity m) =>
    Except.error (IddsErr.duplicatedObject
      ("Content coll_id:scope:name(" ++ toString coll_id ++ ":" ++ scope ++ ":"
        ++ name ++ ") already exists!: " ++ m))
  | some (BackendErr.database m) => Except.error (IddsErr.databaseException m)
  | none =>
    Except.ok (if returning_id then some st.next_id else none,
      { st with rows := st.rows ++ [row], next_id := st.next_id + 1,
                executed := st.executed ++ [[row]] })

/-- A content dictionary passed to add_contents: a field holding `none`
means the key is absent and the default of
src/main/lib/idds/orm/contents.py lines 128-133 applies. -/
structure ContentDict where
  coll_id : Option Nat := none
  scope : Option String := none
  name : Option String := none
  min_id : Option Int := none
  max_id : Option Int := none
  content_type : Option ContentType := none
  status : Option ContentStatus := none
  bytes : Option Int := none
  md5 : Option String := none
  adler32 : Option String := none
  processing_id : Option Nat := none
  storage_id : Option Nat := none
  retries : Option Nat := none
  path : Option String := none
  expired_at : Option Int := none
  content_metadata : Option Meta := none
deriving DecidableEq, Repr

/-- The parameter row built by add_contents for one content dictionary
(src/main/lib/idds/orm/contents.py lines 157-172): defaults applied, enums
converted to values, truthy metadata serialized; the default expired_at is
now + 30 days (2592000 seconds). -/
def contentParamRow (now : Int) (c : ContentDict) (id : Nat) : ContentRow :=
  { content_id := id,
    coll_id := c.coll_id, scope := c.scope, name := c.name,
    min_id := c.min_id, max_id := c.max_id,
    content_type := some (c.content_type.getD ContentType.File).value,
    status := some (c.status.getD ContentStatus.New).value,
    bytes := c.bytes.getD 0, md5 := c.md5, adler32 := c.adler32,
    processing_id := c.processing_id, storage_id := c.storage_id,
    retries := c.retries.getD 0, path := c.path,
    expired_at := some (c.expired_at.getD (now + 2592000)),
    content_metadata := storeMeta c.content_metadata }

/-- Fuel-indexed chunking; with fuel at least the list length this is the
Python slicing params[i:i+bs] for i in range(0, len(params), bs) with bs at
least 1. -/
def chunksAux {α : Type} (bs : Nat) : Nat → List α → List (List α)
  | 0, _ => []
  | _, [] => []
  | fuel + 1, x :: xs => (x :: xs.take (bs - 1)) :: chunksAux bs fuel (xs.drop (bs - 1))

/-- The chunk partition of add_contents
(src/main/lib/idds/orm/contents.py line 174). -/
def chunks {α : Type} (bs : Nat) (l : List α) : List (List α) :=
  chunksAux bs l.length l

/-- The rows inserted for one chunk, with consecutive generated ids. -/
def chunkRows (now : Int) : Nat → List ContentDict → List ContentRow
  | _, [] => []
  | id, c :: cs => contentParamRow now c id :: chunkRows now (id + 1) cs

/-- The row batches inserted for a list of chunks. -/
def batchRowsFrom (now : Int) : Nat → List (List ContentDict) → List (List ContentRow)
  | _, [] => []
  | id, ch :: chs => chunkRows now id ch :: batchRowsFrom now (id + ch.length) chs

/-- The chunk loop of add_contents for the no-id mode
(src/main/lib/idds/orm/contents.py lines 186-187): one batched insert per
chunk; `faults k` is the outcome of the k-th batch statement. -/
def execChunks (faults : Nat → Option BackendErr) (now : Int) (k : Nat) :
    List (List ContentDict) → CStore → Except IddsErr CStore
  | [], st => Except.ok st
  | chunk :: rest, st =>
    match faults k with
    | some (BackendErr.integrity m) =>
      Except.error (IddsErr.duplicatedObject ("Duplicated objects: " ++ m))
    | some (BackendErr.database m) => Except.error (IddsErr.databaseException m)
    | none =>
      execChunks faults now (k + 1) rest
        { st with rows := st.rows ++ chunkRows now st.next_id chunk,
                  next_id := st.next_id + chunk.length,
                  executed := st.executed ++ [chunkRows now st.next_id chunk] }

/-- Embedding of idds.orm.contents.add_contents
(src/main/lib/idds/orm/contents.py lines 114-193): build the parameter rows
with defaults, partition them into chunks of at most bulk_size, then issue
one batched insert per chunk.  With returning_id, the code assigns
sub_param with a string index although sub_param is a list (the chunk), so
any non-empty input raises TypeError before the first insert; without
returning_id a list of len(params) None entries is returned.  A bulk_size
of 0 makes the Python range() call raise ValueError.  On any raised error
the transactional wrapper rolls everything back, so no store is returned. -/
def add_contents (faults : Nat → Option BackendErr) (now : Int)
    (contents : List ContentDict) (returning_id : Bool) (bulk_size : Nat)
    (st : CStore) : Except IddsErr (List (Option Nat) × CStore) :=
  if bulk_size = 0 then Except.error (IddsErr.valueError "range() arg 3 must not be zero")
  else
    let sub_params := chunks bulk_size contents
    if returning_id then
      match sub_params with
      | [] => Except.ok ([], st)
      | _ :: _ =>
        Except.error (IddsErr.typeError "list indices must be integers or slices, not str")
    else
      match execChunks faults now 0 sub_params st with
      | Except.error e => Except.error e
      | Except.ok st' => Except.ok (List.replicate contents.length none, st')

/-- SQL equality of a column against a bound parameter: a comparison with
NULL on either side never matches. -/
def sqlEq {α : Type} [DecidableEq α] : Option α → Option α → Bool
  | some a, some b => decide (a = b)
  | _, _ => false

/-- The unranged match of get_content_id
(src/main/lib/idds/orm/contents.py lines 225-230): coll_id, scope, name and
content_type, with min_id/max_id excluded. -/
def fileMatch (coll_id : Option Nat) (scope name : Option String) (ctv : Nat)
    (r : ContentRow) : Bool :=
  sqlEq r.coll_id coll_id && sqlEq r.scope scope && sqlEq r.name name
    && sqlEq r.content_type (some ctv)

/-- The ranged match of get_content_id
(src/main/lib/idds/orm/contents.py lines 231-237): additionally min_id and
max_id, exactly. -/
def rangedMatch (coll_id : Option Nat) (scope name : Option String) (ctv : Nat)
    (min_id max_id : Option Int) (r : ContentRow) : Bool :=
  fileMatch coll_id scope name ctv r && sqlEq r.min_id min_id && sqlEq r.max_id max_id

/-- The match of get_content_id without a content type
(src/main/lib/idds/orm/contents.py lines 218-223): coll_id, scope, name,
min_id and max_id. -/
def keyMatch (coll_id : Option Nat) (scope name : Option String)
    (min_id max_id : Option Int) (r : ContentRow) : Bool :=
  sqlEq r.coll_id coll_id && sqlEq r.scope scope && sqlEq r.name name
    && sqlEq r.min_id min_id && sqlEq r.max_id max_id

/-- Python string of an optional value, as interpolated with %s. -/
def optStr {α : Type} [ToString α] : Option α → String
  | none => "None"
  | some a => toString a

/-- Python string of an optional string, as interpolated with %s. -/
def optStrS : Option String → String
  | none => "None"
  | some s => s

/-- The NoObject message of get_content_id
(src/main/lib/idds/orm/contents.py lines 242-243); content_type is printed
after its conversion to the storage value. -/
def noObjectMsg (coll_id : Option Nat) (scope name : Option String)
    (ctv : Option Nat) (min_id max_id : Option Int) : String :=
  "content(coll_id: " ++ optStr coll_id ++ ", scope: " ++ optStrS scope
    ++ ", name: " ++ optStrS name ++ ", content_type: " ++ optStr ctv
    ++ ", min_id: " ++ optStr min_id ++ ", max_id: " ++ optStr max_id
    ++ ") cannot be found"

/-- Embedding of idds.orm.contents.get_content_id
(src/main/lib/idds/orm/contents.py lines 196-250): dispatch on the content
type (absent, the unranged File case, or a ranged type), return the first
matching row's id, and raise NoObject when nothing matches. -/
def get_content_id (coll_id : Option Nat) (scope name : Option String)
    (content_type : Option ContentType) (min_id max_id : Option Int)
    (st : CStore) : Except IddsErr Nat :=
  let ctv : Option Nat := content_type.map ContentType.value
  let found : Option ContentRow :=
    match content_type with
    | none => st.rows.find? (fun r => keyMatch coll_id scope name min_id max_id r)
    | some ct =>
      if ct.value = ContentType.File.value then
        st.rows.find? (fun r => fileMatch coll_id scope name ct.value r)
      else
        st.rows.find? (fun r => rangedMatch coll_id scope name ct.value min_id max_id r)
  match found with
  | some r => Except.ok r.content_id
  | none => Except.error (IddsErr.noObject (noObjectMsg coll_id scope name ctv min_id max_id))

/-- The returned content record of get_content, after the read-side
reconstruction of the enum fields and metadata. -/
structure ContentOut where
  content_id : Nat
  coll_id : Option Nat := none
  scope : Option String := none
  name : Option String := none
  min_id : Option Int := none
  max_id : Option Int := none
  content_type : Option ContentType := none
  status : Option ContentStatus := none
  bytes : Int := 0
  md5 : Option String := none
  adler32 : Option String := none
  processing_id : Option Nat := none
  storage_id : Option Nat := none
  retries : Nat := 0
  path : Option String := none
  expired_at : Option Int := none
  content_metadata : Option Meta := none
deriving DecidableEq, Repr

/-- The returned record assembled from a stored row: non-NULL enum values
are reconstructed, truthy metadata is parsed
(src/main/lib/idds/orm/contents.py lines 285-293). -/
def mkOut (r : ContentRow) (ct : Option ContentType) (stv : Option ContentStatus) :
    ContentOut :=
  { content_id := r.content_id, coll_id := r.coll_id, scope := r.scope,
    name := r.name, min_id := r.min_id, max_id := r.max_id,
    content_type := ct, status := stv, bytes := r.bytes, md5 := r.md5,
    adler32 := r.adler32, processing_id := r.processing_id,
    storage_id := r.storage_id, retries := r.retries, path := r.path,
    expired_at := r.expired_at, content_metadata := readMeta r.content_metadata }

/-- The status half of the read-side conversion
(src/main/lib/idds/orm/contents.py lines 288-289). -/
def rowToOutStatus (r : ContentRow) (ct : Option ContentType) :
    Except IddsErr ContentOut :=
  match r.status with
  | none => Except.ok (mkOut r ct none)
  | some v =>
    match contentStatusFromValue v with
    | none => Except.error (IddsErr.valueError "not a valid ContentStatus")
    | some stv => Except.ok (mkOut r ct (some stv))

/-- The full read-side conversion of a stored row
(src/main/lib/idds/orm/contents.py lines 285-293). -/
def rowToOut (r : ContentRow) : Except IddsErr ContentOut :=
  match r.content_type with
  | none => rowToOutStatus r none
  | some v =>
    match contentTypeFromValue v with
    | none => Except.error (IddsErr.valueError "not a valid ContentType")
    | some ct => rowToOutStatus r (some ct)

/-- Embedding of idds.orm.contents.get_content
(src/main/lib/idds/orm/contents.py lines 253-298): a falsy content_id (None
or 0) falls back to the get_content_id lookup; then the row with that id is
read and converted, NoObject being raised if it is absent. -/
def get_content (content_id : Option Nat) (coll_id : Option Nat)
    (scope name : Option String) (content_type : Option ContentType)
    (min_id max_id : Option Int) (st : CStore) : Except IddsErr ContentOut :=
  let cidE : Except IddsErr Nat :=
    match content_id with
    | some cid => if cid = 0 then get_content_id coll_id scope name content_type min_id max_id st
                  else Except.ok cid
    | none => get_content_id coll_id scope name content_type min_id max_id st
  match cidE with
  | Except.error e => Except.error e
  | Except.ok cid =>
    match st.rows.find? (fun r => decide (r.content_id = cid)) with
    | none =>
      Except.error (IddsErr.noObject
        ("content(content_id: " ++ toString cid ++ ") cannot be found"))
    | some r => rowToOut r

/-- A collection payload stamped with its transform id, as done for input
and log collections (src/main/lib/idds/core/requests.py lines 125, 129). -/
def stampColl (tid : Nat) (c : CollPayload) : CollPayload :=
  { c with transform_id := some tid }

/-- An output collection payload stamped with its transform id and the built
coll_metadata (src/main/lib/idds/core/requests.py lines 133-138). -/
def stampOut (tid : Nat) (wl : Option Int) (inIds logIds : List Nat)
    (c : CollPayload) : CollPayload :=
  { c with transform_id := some tid, coll_metadata := some ⟨tid, wl, inIds, logIds⟩ }

/-- The consecutive identifiers k, k+1, ..., k+n-1. -/
def idsFrom : Nat → Nat → List Nat
  | _, 0 => []
  | k, n + 1 => k :: idsFrom (k + 1) n

/-- The collection rows created when a list of payloads is inserted with
consecutive generated ids starting at k. -/
def collRowsFrom : Nat → List CollPayload → List CollRow
  | _, [] => []
  | k, c :: cs =>
    { coll_id := k, transform_id := c.transform_id,
      coll_metadata := c.coll_metadata, tag := c.tag } :: collRowsFrom (k + 1) cs

/-- A transform of transforms_to_add that update_request_with_transforms
processes without raising under a fault-free backend: its collections
payload is present with all three role keys, and either it has no output
collection or its transform_metadata is a dictionary (so the workload_id
read succeeds). -/
def processable (t : TransformToAdd) : Bool :=
  match t.collections with
  | none => false
  | some cd =>
    cd.input_collections.isSome && cd.log_collections.isSome
      && (match cd.output_collections with
          | none => false
          | some outs =>
            outs.isEmpty
              || (match t.transform_metadata with
                  | PyMeta.dict _ => true
                  | _ => false))

/-- Fixture for the counterexample and witnesses: a valid transform whose
collections payload carries the three role keys with empty lists. -/
def tValidFix : TransformToAdd :=
  { collections := some
      { input_collections := some [], output_collections := some [],
        log_collections := some [] },
    transform_metadata := PyMeta.dict [], tag := 1 }

/-- Fixture: a transform with no collections key. -/
def tBadFix : TransformToAdd := { collections := none, tag := 2 }

/-- Fixture: a stored content row for the dedup-lookup witness. -/
def c6row : ContentRow :=
  { content_id := 5, coll_id := some 1, scope := some "s", name := some "n",
    content_type := some 1, min_id := some 0, max_id := some 3 }

/-- Fixture: a one-row contents store for the dedup-lookup witness. -/
def c6store : CStore := { rows := [c6row] }

/-- C1: any failure during update_request_with_transforms — a validation
failure, a uniqueness violation, or a backend error injected at any
statement — leaves the store unchanged: every insert and update performed
earlier in the same call is rolled back. -/
theorem update_request_with_transforms_rollback_on_error
    (faults : Nat → Option BackendErr) (now : Int) (rid : Nat) (p : ReqParams)
    (tta : List TransformToAdd) (tte : List TransformToExtend) (store : Store)
    (e : IddsErr)
    (h : (update_request_with_transforms faults now rid p tta tte store).1
      = Except.error e) :
    (update_request_with_transforms faults now rid p tta tte store).2.1 = store := by
  unfold update_request_with_transforms runTransactional at h ⊢
  cases hb : update_request_with_transforms_body faults now rid p tta tte
      { store := store, stmts := [] } with
  | ok a s => rw [hb] at h; exact absurd h (by simp)
  | err e' s => rfl

/-- Witness for C1: a call whose second transform batch entry is invalid
fails with WrongParameterException and the observable store equals the
initial one, although a transform insert had been issued. -/
theorem update_request_with_transforms_rollback_on_error_witness :
    (update_request_with_transforms noFaults 0 1 {} [tValidFix, tBadFix] [] {}).1
        = Except.error (IddsErr.wrongParameter validationMsg)
      ∧ (update_request_with_transforms noFaults 0 1 {} [tValidFix, tBadFix] [] {}).2.1
        = {} :=
  ⟨rfl, update_request_with_transforms_rollback_on_error noFaults 0 1 {}
    [tValidFix, tBadFix] [] {} (IddsErr.wrongParameter validationMsg) rfl⟩

/-- C7: clean_locking resets the locking field to Idle for exactly those
requests that are Locking and were locked more than time_period seconds
ago; every other request row is left entirely unchanged. -/
theorem clean_locking_resets_expired (now time_period : Int)
    (store : List RequestRow) :
    clean_locking now time_period store = store.map (fun r =>
      if r.locking = RequestLocking.Locking ∧ now - r.updated_at > time_period then
        { r with locking := RequestLocking.Idle }
      else r) := by
  unfold clean_locking orm_clean_locking
  refine List.map_congr_left (fun r _ => ?_)
  by_cases hl : r.locking = RequestLocking.Locking
  · by_cases ht : r.updated_at + time_period < now
    · rw [if_pos (by simp [hl, ht]), if_pos ⟨hl, by omega⟩]
    · rw [if_neg (by simp [hl, ht]), if_neg (by rintro ⟨-, h⟩; omega)]
  · rw [if_neg (by simp [hl]), if_neg (by rintro ⟨h, -⟩; exact hl h)]

/-- The loop updating the locking field of each returned request is the
pointwise map setting locking to Locking (and stamping updated_at) on the
rows whose id was returned. -/
theorem foldl_lock_update (now : Int) (L : List RequestRow)
    (store : List RequestRow) :
    L.foldl (fun st r =>
        orm_update_request now r.request_id { locking := some RequestLocking.Locking } st)
      store
    = store.map (fun row =>
        if row.request_id ∈ L.map RequestRow.request_id then
          { row with locking := RequestLocking.Locking, updated_at := now }
        else row) := by
  induction L generalizing store with
  | nil => simp
  | cons a L ih =>
    rw [List.foldl_cons, ih]
    unfold orm_update_request
    rw [List.map_map]
    refine List.map_congr_left (fun row _ => ?_)
    by_cases h : row.request_id = a.request_id
    · simp only [Function.comp_apply, if_pos h, applyReqParams, Option.getD_none,
        Option.getD_some]
      by_cases h2 : row.request_id ∈ L.map RequestRow.request_id
      · simp [h, h2]
      · simp [h, h2]
    · simp only [Function.comp_apply, if_neg h]
      by_cases h2 : row.request_id ∈ L.map RequestRow.request_id
      · simp [h, h2]
      · simp [h, h2]

/-- C2: get_requests_by_status_type returns the pre-lock snapshot of the
matched rows (each returned row is a row of the store as it stood before
any lock update), and the store after the call has the locking field of
every returned request set to Locking when locking is requested, while with
locking disabled the store is untouched. -/
theorem get_requests_by_status_type_lock_snapshot (now : Int)
    (status : List RequestStatus) (request_type : Option Nat)
    (time_period : Option Int) (locking : Bool) (bulk_size : Option Nat)
    (store : List RequestRow) :
    (∀ r, r ∈ (get_requests_by_status_type now status request_type time_period
        locking bulk_size store).1 → r ∈ store)
    ∧ (get_requests_by_status_type now status request_type time_period locking
        bulk_size store).2
      = (if locking then
          store.map (fun row =>
            if row.request_id ∈ ((get_requests_by_status_type now status
                request_type time_period locking bulk_size store).1.map
                RequestRow.request_id) then
              { row with locking := RequestLocking.Locking, updated_at := now }
            else row)
        else store) := by
  constructor
  · intro r hr
    unfold get_requests_by_status_type orm_get_requests_by_status_type at hr
    simp only at hr
    cases bulk_size with
    | none => exact List.mem_of_mem_filter hr
    | some b => exact List.mem_of_mem_filter (List.take_subset b _ hr)
  · unfold get_requests_by_status_type
    simp only
    cases locking with
    | false => simp
    | true => simp only [if_pos trivial]; exact foldl_lock_update now _ store

/-- Witness for C2: on a concrete store holding one claimable request, the
returned snapshot row is a member of the pre-call store. -/
theorem get_requests_by_status_type_lock_snapshot_witness :
    ({ request_id := 3, status := RequestStatus.New } : RequestRow)
      ∈ [({ request_id := 3, status := RequestStatus.New } : RequestRow)] :=
  (get_requests_by_status_type_lock_snapshot 100 [RequestStatus.New] none none
      true none [{ request_id := 3, status := RequestStatus.New }]).1
    { request_id := 3, status := RequestStatus.New } (by decide)

/-- Processing a concatenated batch of transforms processes the first part
and, if it succeeds, continues with the second from the reached session. -/
theorem processTransformsToAdd_append (faults : Nat → Option BackendErr)
    (as bs : List TransformToAdd) (s : SessionState) :
    processTransformsToAdd faults (as ++ bs) s
      = (match processTransformsToAdd faults as s with
        | Res.ok _ s' => processTransformsToAdd faults bs s'
        | Res.err e s' => Res.err e s') := by
  induction as generalizing s with
  | nil => simp [processTransformsToAdd]
  | cons a as ih =>
    simp only [List.cons_append, processTransformsToAdd]
    cases h : processTransformToAdd faults a s with
    | ok u s' => simp only [h]; exact ih s'
    | err e s' => simp only [h]

/-- Under a fault-free backend, inserting a list of input or log collections
succeeds, returns their consecutive generated ids, appends the stamped rows
to the store, and logs one insert statement per collection. -/
theorem addCollectionsLoop_noFaults (tid : Nat) (cs : List CollPayload)
    (s : SessionState) :
    addCollectionsLoop noFaults tid cs s
      = Res.ok (idsFrom s.store.next_id cs.length)
          { store := { s.store with
              collections := s.store.collections
                ++ collRowsFrom s.store.next_id (cs.map (stampColl tid)),
              next_id := s.store.next_id + cs.length },
            stmts := s.stmts ++ cs.map (fun c => Stmt.insertCollection c.tag) } := by
  induction cs generalizing s with
  | nil => simp [addCollectionsLoop, idsFrom, collRowsFrom]
  | cons c cs ih =>
    have step : addCollectionsLoop noFaults tid (c :: cs) s
        = (match addCollectionsLoop noFaults tid cs
            { store := { s.store with
                collections := s.store.collections
                  ++ [{ coll_id := s.store.next_id, transform_id := some tid,
                        coll_metadata := c.coll_metadata, tag := c.tag }],
                next_id := s.store.next_id + 1 },
              stmts := s.stmts ++ [Stmt.insertCollection c.tag] } with
          | Res.err e s'' => Res.err e s''
          | Res.ok cids s'' => Res.ok (s.store.next_id :: cids) s'') := rfl
    rw [step, ih]
    simp [idsFrom, collRowsFrom, stampColl, List.append_assoc]
    omega

/-- Under a fault-free backend, inserting a list of output collections for a
transform whose metadata is a dictionary succeeds, appends the rows stamped
with the transform id and the built coll_metadata, and logs one insert
statement per collection. -/
theorem addOutputCollectionsLoop_noFaults (tid : Nat) (m : List (String × Int))
    (inIds logIds : List Nat) (outs : List CollPayload) (s : SessionState) :
    addOutputCollectionsLoop noFaults tid (PyMeta.dict m) inIds logIds outs s
      = Res.ok ()
          { store := { s.store with
              collections := s.store.collections
                ++ collRowsFrom s.store.next_id
                    (outs.map (stampOut tid (m.lookup "workload_id") inIds logIds)),
              next_id := s.store.next_id + outs.length },
            stmts := s.stmts ++ outs.map (fun c => Stmt.insertCollection c.tag) } := by
  induction outs generalizing s with
  | nil => simp [addOutputCollectionsLoop, collRowsFrom]
  | cons c cs ih =>
    have step : addOutputCollectionsLoop noFaults tid (PyMeta.dict m) inIds logIds (c :: cs) s
        = addOutputCollectionsLoop noFaults tid (PyMeta.dict m) inIds logIds cs
            { store := { s.store with
                collections := s.store.collections
                  ++ [{ coll_id := s.store.next_id, transform_id := some tid,
                        coll_metadata := some ⟨tid, m.lookup "workload_id", inIds, logIds⟩,
                        tag := c.tag }],
                next_id := s.store.next_id + 1 },
              stmts := s.stmts ++ [Stmt.insertCollection c.tag] } := rfl
    rw [step, ih]
    simp [collRowsFrom, stampOut, List.append_assoc]
    omega

/-- Under a fault-free backend, the transform insert succeeds and returns
the generated id. -/
theorem orm_add_transform_noFaults (md : PyMeta) (tg : Nat) (s : SessionState) :
    orm_add_transform noFaults md tg s
      = Res.ok s.store.next_id
          { store := { s.store with
              transforms := s.store.transforms
                ++ [{ transform_id := s.store.next_id, transform_metadata := md,
                      tag := tg }],
              next_id := s.store.next_id + 1 },
            stmts := s.stmts ++ [Stmt.insertTransform tg] } := rfl

/-- A processable transform is processed without raising under a fault-free
backend. -/
theorem processTransformToAdd_processable_ok (t : TransformToAdd)
    (s : SessionState) (h : processable t = true) :
    ∃ s', processTransformToAdd noFaults t s = Res.ok () s' := by
  obtain ⟨colls, md, tg⟩ := t
  cases colls with
  | none => simp [processable] at h
  | some cd =>
    obtain ⟨insO, outsO, logsO, ex⟩ := cd
    cases insO with
    | none => simp [processable] at h
    | some ins =>
      cases logsO with
      | none => simp [processable] at h
      | some logs =>
        cases outsO with
        | none => simp [processable] at h
        | some outs =>
          have hlen : ¬ (CollectionsDict.pyLen
              ⟨some ins, some outs, some logs, ex⟩ = 0) := by
            simp [CollectionsDict.pyLen]
          cases outs with
          | nil =>
            simp only [processTransformToAdd, if_neg hlen,
              orm_add_transform_noFaults, addCollectionsLoop_noFaults,
              addOutputCollectionsLoop]
            exact ⟨_, rfl⟩
          | cons o os =>
            simp only [processable, Option.isSome_some, Bool.true_and,
              List.isEmpty_cons, Bool.false_or] at h
            cases md with
            | noKey => simp at h
            | pyNone => simp at h
            | dict m =>
              simp only [processTransformToAdd, if_neg hlen,
                orm_add_transform_noFaults, addCollectionsLoop_noFaults,
                addOutputCollectionsLoop_noFaults]
              exact ⟨_, rfl⟩

/-- A prefix of processable transforms is processed without raising under a
fault-free backend. -/
theorem processTransformsToAdd_processable (pre : List TransformToAdd)
    (hpre : ∀ u ∈ pre, processable u = true) (s : SessionState) :
    ∃ s', processTransformsToAdd noFaults pre s = Res.ok () s' := by
  induction pre generalizing s with
  | nil => exact ⟨s, rfl⟩
  | cons a as ih =>
    obtain ⟨s1, h1⟩ := processTransformToAdd_processable_ok a s (hpre a (by simp))
    obtain ⟨s2, h2⟩ := ih (fun u hu => hpre u (by simp [hu])) s1
    exact ⟨s2, by simp only [processTransformsToAdd, h1, h2]⟩

/-- C3 counterexample: a batch whose first transform is valid and whose
second lacks its collections raises WrongParameterException, but a transform
insert statement for the valid entry had already been issued before the
error — the validation error is not raised before any statement is issued.
-/
theorem commit_validation_counterexample :
    (update_request_with_transforms noFaults 0 7 {} [tValidFix, tBadFix] [] {}).1
        = Except.error (IddsErr.wrongParameter validationMsg)
      ∧ (update_request_with_transforms noFaults 0 7 {} [tValidFix, tBadFix] [] {}).2.2
        = [Stmt.insertTransform 1] :=
  ⟨rfl, rfl⟩

/-- C3 (amended): a transform without a collections key or with an empty
collections payload makes the whole call raise WrongParameterException; the
error is raised before any statement for the offending transform or any
later entry is issued — the statements issued are exactly those of the
earlier valid transforms, and none at all when the offending transform is
first — and the rollback leaves the store unchanged. -/
theorem commit_validation_abort (now : Int) (rid : Nat) (p : ReqParams)
    (pre post : List TransformToAdd) (t : TransformToAdd)
    (tte : List TransformToExtend) (store : Store)
    (hbad : t.collections = none ∨ ∃ cd, t.collections = some cd ∧ cd.pyLen = 0)
    (hpre : ∀ u ∈ pre, processable u = true) :
    ∃ s', processTransformsToAdd noFaults pre { store := store, stmts := [] }
        = Res.ok () s'
      ∧ update_request_with_transforms noFaults now rid p (pre ++ t :: post) tte store
          = (Except.error (IddsErr.wrongParameter validationMsg), store, s'.stmts)
      ∧ (pre = [] → s'.stmts = []) := by
  obtain ⟨s', h1⟩ :=
    processTransformsToAdd_processable pre hpre { store := store, stmts := [] }
  have hbadstep : processTransformToAdd noFaults t s'
      = Res.err (IddsErr.wrongParameter validationMsg) s' := by
    rcases hbad with hnone | ⟨cd, hcd, hlen⟩
    · simp only [processTransformToAdd, hnone]
    · simp only [processTransformToAdd, hcd, if_pos hlen]
  have h2 : processTransformsToAdd noFaults (pre ++ t :: post)
      { store := store, stmts := [] }
      = Res.err (IddsErr.wrongParameter validationMsg) s' := by
    rw [processTransformsToAdd_append, h1]
    simp only [processTransformsToAdd, hbadstep]
  refine ⟨s', h1, ?_, ?_⟩
  · simp only [update_request_with_transforms, runTransactional,
      update_request_with_transforms_body, h2]
  · intro hpre0
    subst hpre0
    have h0 : Res.ok () ({ store := store, stmts := [] } : SessionState)
        = Res.ok () s' := h1
    injection h0 with ha hs
    rw [← hs]

/-- Witness for the amended C3: with an empty prefix the call fails with
WrongParameterException and no statement at all is issued. -/
theorem commit_validation_abort_witness :
    ∃ s', processTransformsToAdd noFaults [] { store := {}, stmts := [] }
        = Res.ok () s'
      ∧ update_request_with_transforms noFaults 0 1 {} ([] ++ tBadFix :: []) [] {}
          = (Except.error (IddsErr.wrongParameter validationMsg), {}, s'.stmts)
      ∧ (([] : List TransformToAdd) = [] → s'.stmts = []) :=
  commit_validation_abort 0 1 {} [] [] tBadFix [] {} (Or.inl rfl) (by decide)

/-- C4: every output collection of a transform added by the commit protocol
is inserted stamped with the newly generated transform id and with
coll_metadata holding that transform id, the workload id read from the
transform's own metadata when present (absent otherwise), and the lists of
generated ids of the input and log collections inserted in the same call
for that transform. -/
theorem output_collection_metadata_stamping (ins outs logs : List CollPayload)
    (ex : Nat) (m : List (String × Int)) (tg : Nat) (s : SessionState) :
    ∃ s', processTransformToAdd noFaults
        { collections := some
            { input_collections := some ins, output_collections := some outs,
              log_collections := some logs, extra_keys := ex },
          transform_metadata := PyMeta.dict m, tag := tg } s = Res.ok () s'
      ∧ s'.store.transforms = s.store.transforms
          ++ [{ transform_id := s.store.next_id,
                transform_metadata := PyMeta.dict m, tag := tg }]
      ∧ s'.store.collections = s.store.collections
          ++ collRowsFrom (s.store.next_id + 1) (ins.map (stampColl s.store.next_id))
          ++ collRowsFrom (s.store.next_id + 1 + ins.length)
              (logs.map (stampColl s.store.next_id))
          ++ collRowsFrom (s.store.next_id + 1 + ins.length + logs.length)
              (outs.map (stampOut s.store.next_id (m.lookup "workload_id")
                (idsFrom (s.store.next_id + 1) ins.length)
                (idsFrom (s.store.next_id + 1 + ins.length) logs.length))) := by
  have hlen : ¬ (CollectionsDict.pyLen ⟨some ins, some outs, some logs, ex⟩ = 0) := by
    simp [CollectionsDict.pyLen]
  simp only [processTransformToAdd, if_neg hlen, orm_add_transform_noFaults,
    addCollectionsLoop_noFaults, addOutputCollectionsLoop_noFaults]
  exact ⟨_, rfl, rfl, rfl⟩

/-- C10: a transform whose collections payload passes validation and has at
least one output collection, but which carries no transform_metadata key (or
a None value there), makes the call fail with an untyped lookup error
(KeyError, resp. TypeError) rather than the typed WrongParameterException.
-/
theorem commit_missing_metadata_untyped (now : Int) (rid : Nat) (p : ReqParams)
    (pre post : List TransformToAdd) (tte : List TransformToExtend) (store : Store)
    (ins logs : List CollPayload) (o : CollPayload) (os : List CollPayload)
    (ex tg : Nat)
    (hpre : ∀ u ∈ pre, processable u = true) :
    (update_request_with_transforms noFaults now rid p
        (pre ++ { collections := some
                    { input_collections := some ins,
                      output_collections := some (o :: os),
                      log_collections := some logs, extra_keys := ex },
                  transform_metadata := PyMeta.noKey, tag := tg } :: post) tte store).1
      = Except.error (IddsErr.keyError "transform_metadata")
    ∧ (update_request_with_transforms noFaults now rid p
        (pre ++ { collections := some
                    { input_collections := some ins,
                      output_collections := some (o :: os),
                      log_collections := some logs, extra_keys := ex },
                  transform_metadata := PyMeta.pyNone, tag := tg } :: post) tte store).1
      = Except.error (IddsErr.typeError "argument of type NoneType is not iterable") := by
  obtain ⟨s', h1⟩ :=
    processTransformsToAdd_processable pre hpre { store := store, stmts := [] }
  have hlen : ¬ (CollectionsDict.pyLen ⟨some ins, some (o :: os), some logs, ex⟩ = 0) := by
    simp [CollectionsDict.pyLen]
  constructor
  · obtain ⟨s3, hstep⟩ : ∃ s3, processTransformToAdd noFaults
        { collections := some
            { input_collections := some ins, output_collections := some (o :: os),
              log_collections := some logs, extra_keys := ex },
          transform_metadata := PyMeta.noKey, tag := tg } s'
        = Res.err (IddsErr.keyError "transform_metadata") s3 := by
      simp only [processTransformToAdd, if_neg hlen, orm_add_transform_noFaults,
        addCollectionsLoop_noFaults, addOutputCollectionsLoop, workloadLookup]
      exact ⟨_, rfl⟩
    have h2 : processTransformsToAdd noFaults (pre ++
        ({ collections := some
             { input_collections := some ins, output_collections := some (o :: os),
               log_collections := some logs, extra_keys := ex },
           transform_metadata := PyMeta.noKey, tag := tg } : TransformToAdd) :: post)
        { store := store, stmts := [] }
        = Res.err (IddsErr.keyError "transform_metadata") s3 := by
      rw [processTransformsToAdd_append, h1]
      simp only [processTransformsToAdd, hstep]
    simp only [update_request_with_transforms, runTransactional,
      update_request_with_transforms_body, h2]
  · obtain ⟨s3, hstep⟩ : ∃ s3, processTransformToAdd noFaults
        { collections := some
            { input_collections := some ins, output_collections := some (o :: os),
              log_collections := some logs, extra_keys := ex },
          transform_metadata := PyMeta.pyNone, tag := tg } s'
        = Res.err (IddsErr.typeError "argument of type NoneType is not iterable") s3 := by
      simp only [processTransformToAdd, if_neg hlen, orm_add_transform_noFaults,
        addCollectionsLoop_noFaults, addOutputCollectionsLoop, workloadLookup]
      exact ⟨_, rfl⟩
    have h2 : processTransformsToAdd noFaults (pre ++
        ({ collections := some
             { input_collections := some ins, output_collections := some (o :: os),
               log_collections := some logs, extra_keys := ex },
           transform_metadata := PyMeta.pyNone, tag := tg } : TransformToAdd) :: post)
        { store := store, stmts := [] }
        = Res.err (IddsErr.typeError "argument of type NoneType is not iterable") s3 := by
      rw [processTransformsToAdd_append, h1]
      simp only [processTransformsToAdd, hstep]
    simp only [update_request_with_transforms, runTransactional,
      update_request_with_transforms_body, h2]

/-- Witness for C10: a concrete transform with one output collection and no
transform_metadata key fails with KeyError rather than
WrongParameterException. -/
theorem commit_missing_metadata_untyped_witness :
    (update_request_with_transforms noFaults 0 1 {}
        ([] ++ { collections := some
                   { input_collections := some [],
                     output_collections := some [{ tag := 0 }],
                     log_collections := some [], extra_keys := 0 },
                 transform_metadata := PyMeta.noKey, tag := 0 } :: []) [] {}).1
      = Except.error (IddsErr.keyError "transform_metadata")
    ∧ (update_request_with_transforms noFaults 0 1 {}
        ([] ++ { collections := some
                   { input_collections := some [],
                     output_collections := some [{ tag := 0 }],
                     log_collections := some [], extra_keys := 0 },
                 transform_metadata := PyMeta.pyNone, tag := 0 } :: []) [] {}).1
      = Except.error (IddsErr.typeError "argument of type NoneType is not iterable") :=
  commit_missing_metadata_untyped 0 1 {} [] [] [] {} [] [] { tag := 0 } [] 0 0 (by decide)

/-- Concatenating the chunks of a list gives back the list. -/
theorem chunksAux_flatten {α : Type} (b : Nat) (fuel : Nat) (l : List α)
    (h : l.length ≤ fuel) : (chunksAux (b + 1) fuel l).flatten = l := by
  induction fuel generalizing l with
  | zero =>
    cases l with
    | nil => rfl
    | cons x xs => simp at h
  | succ fuel ih =>
    cases l with
    | nil => rfl
    | cons x xs =>
      simp only [chunksAux, Nat.add_sub_cancel, List.flatten_cons]
      rw [ih (xs.drop b)
        (by rw [List.length_drop]; simp only [List.length_cons] at h; omega)]
      simp [List.take_append_drop]

/-- The number of chunks is the length divided by the chunk size, rounded
up. -/
theorem chunksAux_length {α : Type} (b : Nat) (fuel : Nat) (l : List α)
    (h : l.length ≤ fuel) :
    (chunksAux (b + 1) fuel l).length = (l.length + b) / (b + 1) := by
  induction fuel generalizing l with
  | zero =>
    cases l with
    | nil => simp [chunksAux, Nat.div_eq_of_lt]
    | cons x xs => simp at h
  | succ fuel ih =>
    cases l with
    | nil => simp [chunksAux, Nat.div_eq_of_lt]
    | cons x xs =>
      simp only [chunksAux, Nat.add_sub_cancel, List.length_cons]
      rw [ih (xs.drop b)
        (by rw [List.length_drop]; simp only [List.length_cons] at h; omega)]
      rw [List.length_drop]
      rcases Nat.le_total b xs.length with hb | hb
      · rw [Nat.sub_add_cancel hb]
        have : xs.length + 1 + b = xs.length + (b + 1) := by omega
        rw [this, Nat.add_div_right _ (Nat.succ_pos b)]
      · have h1 : xs.length - b = 0 := by omega
        rw [h1]
        have h2 : (0 + b) / (b + 1) = 0 := Nat.div_eq_of_lt (by omega)
        rw [h2]
        have h3 : (xs.length + 1 + b) / (b + 1) = 1 :=
          Nat.div_eq_of_lt_le (by omega) (by omega)
        omega

/-- Every chunk holds at most the chunk size of records. -/
theorem chunksAux_le {α : Type} (b : Nat) (fuel : Nat) (l : List α)
    (c : List α) (hc : c ∈ chunksAux (b + 1) fuel l) : c.length ≤ b + 1 := by
  induction fuel generalizing l with
  | zero => simp [chunksAux] at hc
  | succ fuel ih =>
    cases l with
    | nil => simp [chunksAux] at hc
    | cons x xs =>
      simp only [chunksAux, Nat.add_sub_cancel, List.mem_cons] at hc
      rcases hc with hc | hc
      · subst hc
        simp [List.length_take]
      · exact ih _ hc

/-- The rows of one chunk are as many as its records. -/
theorem chunkRows_length (now : Int) (id : Nat) (cs : List ContentDict) :
    (chunkRows now id cs).length = cs.length := by
  induction cs generalizing id with
  | nil => rfl
  | cons c cs ih => simp [chunkRows, ih]

/-- Chunk rows of a concatenation split at the concatenation, with the id
counter advanced by the first part. -/
theorem chunkRows_append (now : Int) (id : Nat) (a b : List ContentDict) :
    chunkRows now id (a ++ b) = chunkRows now id a ++ chunkRows now (id + a.length) b := by
  induction a generalizing id with
  | nil => simp [chunkRows]
  | cons c cs ih =>
    have h0 : (c :: cs) ++ b = c :: (cs ++ b) := rfl
    rw [h0]
    show contentParamRow now c id :: chunkRows now (id + 1) (cs ++ b)
      = chunkRows now id (c :: cs) ++ chunkRows now (id + (c :: cs).length) b
    rw [ih]
    show _ = (contentParamRow now c id :: chunkRows now (id + 1) cs)
      ++ chunkRows now (id + (c :: cs).length) b
    simp only [List.cons_append, List.length_cons]
    have h3 : id + 1 + cs.length = id + (cs.length + 1) := by omega
    rw [h3]

/-- One batch of rows per chunk. -/
theorem batchRowsFrom_length (now : Int) (id : Nat) (chs : List (List ContentDict)) :
    (batchRowsFrom now id chs).length = chs.length := by
  induction chs generalizing id with
  | nil => rfl
  | cons ch chs ih => simp [batchRowsFrom, ih]

/-- Flattening the row batches gives the rows of the flattened chunks. -/
theorem batchRowsFrom_flatten (now : Int) (id : Nat) (chs : List (List ContentDict)) :
    (batchRowsFrom now id chs).flatten = chunkRows now id chs.flatten := by
  induction chs generalizing id with
  | nil => rfl
  | cons ch chs ih =>
    simp only [batchRowsFrom, List.flatten_cons, ih, chunkRows_append]

/-- Every batch of rows has the length of its chunk. -/
theorem batchRowsFrom_mem_length (now : Int) (id : Nat)
    (chs : List (List ContentDict)) (batch : List ContentRow)
    (hb : batch ∈ batchRowsFrom now id chs) :
    ∃ ch ∈ chs, batch.length = ch.length := by
  induction chs generalizing id with
  | nil => simp [batchRowsFrom] at hb
  | cons ch chs ih =>
    simp only [batchRowsFrom, List.mem_cons] at hb
    rcases hb with hb | hb
    · exact ⟨ch, by simp, by simp [hb, chunkRows_length]⟩
    · obtain ⟨ch', hmem, hlen⟩ := ih _ hb
      exact ⟨ch', by simp [hmem], hlen⟩

/-- Under a fault-free backend the chunk loop inserts every batch, advancing
the id counter, and logs one batched insert per chunk. -/
theorem execChunks_noFaults (now : Int) (chs : List (List ContentDict))
    (k : Nat) (st : CStore) :
    execChunks noFaults now k chs st
      = Except.ok
          { st with rows := st.rows ++ (batchRowsFrom now st.next_id chs).flatten,
                    next_id := st.next_id + chs.flatten.length,
                    executed := st.executed ++ batchRowsFrom now st.next_id chs } := by
  induction chs generalizing k st with
  | nil => simp [execChunks, batchRowsFrom]
  | cons ch chs ih =>
    have step : execChunks noFaults now k (ch :: chs) st
        = execChunks noFaults now (k + 1) chs
            { st with rows := st.rows ++ chunkRows now st.next_id ch,
                      next_id := st.next_id + ch.length,
                      executed := st.executed ++ [chunkRows now st.next_id ch] } := rfl
    rw [step, ih]
    simp only [batchRowsFrom, List.flatten_cons, Except.ok.injEq, CStore.mk.injEq]
    refine ⟨?_, ?_, ?_⟩
    · simp [List.append_assoc]
    · simp [List.length_append]
      omega
    · simp [List.append_assoc]

/-- C5: add_contents without id generation partitions the n records into
ceil(n / bulkSize) batches of at most bulkSize records in input order,
issues exactly one batched insert per batch, and returns n nulls; with id
generation requested, the code instead raises TypeError on any non-empty
input (it assigns the chunk list with a string index), so no identifiers are
ever returned. -/
theorem add_contents_chunking :
    (∀ (now : Int) (contents : List ContentDict) (b : Nat) (st : CStore),
      add_contents noFaults now contents false (b + 1) st
        = Except.ok (List.replicate contents.length none,
            { st with rows := st.rows ++ chunkRows now st.next_id contents,
                      next_id := st.next_id + contents.length,
                      executed := st.executed
                        ++ batchRowsFrom now st.next_id (chunks (b + 1) contents) })
      ∧ (batchRowsFrom now st.next_id (chunks (b + 1) contents)).length
          = (contents.length + b) / (b + 1)
      ∧ (batchRowsFrom now st.next_id (chunks (b + 1) contents)).all
          (fun batch => decide (batch.length ≤ b + 1)) = true
      ∧ (batchRowsFrom now st.next_id (chunks (b + 1) contents)).flatten
          = chunkRows now st.next_id contents)
    ∧ add_contents noFaults 0 [{ }] true 100 { }
        = Except.error (IddsErr.typeError "list indices must be integers or slices, not str") := by
  constructor
  · intro now contents b st
    have hflat : (chunks (b + 1) contents).flatten = contents :=
      chunksAux_flatten b contents.length contents (Nat.le_refl _)
    refine ⟨?_, ?_, ?_, ?_⟩
    · have hstep : add_contents noFaults now contents false (b + 1) st
          = (match execChunks noFaults now 0 (chunks (b + 1) contents) st with
            | Except.error e => Except.error e
            | Except.ok st' => Except.ok (List.replicate contents.length none, st')) := by
        simp [add_contents]
      rw [hstep, execChunks_noFaults]
      simp only [batchRowsFrom_flatten, hflat]
    · rw [batchRowsFrom_length]
      exact chunksAux_length b contents.length contents (Nat.le_refl _)
    · rw [List.all_eq_true]
      intro batch hb
      obtain ⟨ch, hch, hlen⟩ := batchRowsFrom_mem_length now st.next_id _ batch hb
      simp only [decide_eq_true_eq, hlen]
      exact chunksAux_le b contents.length contents ch hch
    · rw [batchRowsFrom_flatten, hflat]
  · rfl

/-- C9: a backend integrity error on the insert of add_content or
add_contents is re-raised as DuplicatedObject — for add_content with the
offending key coll_id:scope:name embedded in the message, for add_contents
with the backend's report embedded — a generic backend database error is
re-raised as DatabaseException, and a fault-free insert raises neither:
Duplicate is raised exactly for integrity violations. -/
theorem content_insert_error_mapping (m : String) (coll_id : Nat)
    (scope name : String) (min_id max_id : Option Int) (ct : ContentType)
    (cst : ContentStatus) (bytes : Int) (md5 adler32 : Option String)
    (pid sid : Option Nat) (retries : Nat) (path : Option String)
    (exp : Option Int) (meta : Option Meta) (rid : Bool) (st : CStore)
    (now : Int) (c : ContentDict) (cs : List ContentDict) (b : Nat) :
    add_content (some (BackendErr.integrity m)) coll_id scope name min_id max_id
        ct cst bytes md5 adler32 pid sid retries path exp meta rid st
      = Except.error (IddsErr.duplicatedObject
          ("Content coll_id:scope:name(" ++ toString coll_id ++ ":" ++ scope
            ++ ":" ++ name ++ ") already exists!: " ++ m))
    ∧ add_content (some (BackendErr.database m)) coll_id scope name min_id max_id
        ct cst bytes md5 adler32 pid sid retries path exp meta rid st
      = Except.error (IddsErr.databaseException m)
    ∧ (add_content none coll_id scope name min_id max_id ct cst bytes md5
        adler32 pid sid retries path exp meta rid st).isOk = true
    ∧ add_contents (fun _ => some (BackendErr.integrity m)) now (c :: cs) false (b + 1) st
      = Except.error (IddsErr.duplicatedObject ("Duplicated objects: " ++ m))
    ∧ add_contents (fun _ => some (BackendErr.database m)) now (c :: cs) false (b + 1) st
      = Except.error (IddsErr.databaseException m)
    ∧ (add_contents noFaults now (c :: cs) false (b + 1) st).isOk = true := by
  refine ⟨rfl, rfl, rfl, rfl, rfl, ?_⟩
  have hstep : add_contents noFaults now (c :: cs) false (b + 1) st
      = (match execChunks noFaults now 0 (chunks (b + 1) (c :: cs)) st with
        | Except.error e => Except.error e
        | Except.ok st' => Except.ok (List.replicate (c :: cs).length none, st')) := by
    simp [add_contents]
  rw [hstep, execChunks_noFaults]
  rfl

/-- SQL equality against a bound non-NULL parameter holds exactly for the
equal non-NULL column value. -/
theorem sqlEq_some_iff {α : Type} [DecidableEq α] (o : Option α) (v : α) :
    sqlEq o (some v) = true ↔ o = some v := by
  cases o <;> simp [sqlEq]

/-- The storage values of the content type enum are distinct: the File value
identifies File. -/
theorem contentType_value_file_iff (ct : ContentType) :
    ct.value = ContentType.File.value ↔ ct = ContentType.File := by
  cases ct <;> simp [ContentType.value]

/-- The unranged match spelled on the row fields. -/
theorem fileMatch_iff (cv : Nat) (sv nv : String) (ctv : Nat) (r : ContentRow) :
    fileMatch (some cv) (some sv) (some nv) ctv r = true
      ↔ r.coll_id = some cv ∧ r.scope = some sv ∧ r.name = some nv
        ∧ r.content_type = some ctv := by
  simp [fileMatch, sqlEq_some_iff, Bool.and_eq_true, and_assoc]

/-- The ranged match spelled on the row fields. -/
theorem rangedMatch_iff (cv : Nat) (sv nv : String) (ctv : Nat) (a b : Int)
    (r : ContentRow) :
    rangedMatch (some cv) (some sv) (some nv) ctv (some a) (some b) r = true
      ↔ r.coll_id = some cv ∧ r.scope = some sv ∧ r.name = some nv
        ∧ r.content_type = some ctv ∧ r.min_id = some a ∧ r.max_id = some b := by
  simp [rangedMatch, fileMatch, sqlEq_some_iff, Bool.and_eq_true, and_assoc]

/-- The untyped identity match spelled on the row fields. -/
theorem keyMatch_iff (cv : Nat) (sv nv : String) (a b : Int) (r : ContentRow) :
    keyMatch (some cv) (some sv) (some nv) (some a) (some b) r = true
      ↔ r.coll_id = some cv ∧ r.scope = some sv ∧ r.name = some nv
        ∧ r.min_id = some a ∧ r.max_id = some b := by
  simp [keyMatch, sqlEq_some_iff, Bool.and_eq_true, and_assoc]

/-- A first-match lookup returns an id exactly when some row matches. -/
theorem findOk_iff (rows : List ContentRow) (p : ContentRow → Bool)
    (fallback : Except IddsErr Nat) (hfb : ∀ id, fallback ≠ Except.ok id) :
    (∃ id, (match rows.find? p with
      | some r => Except.ok r.content_id
      | none => fallback) = Except.ok id)
    ↔ ∃ r ∈ rows, p r = true := by
  cases hf : rows.find? p with
  | none =>
    constructor
    · rintro ⟨id, hid⟩
      exact absurd hid (hfb id)
    · rintro ⟨r, hmem, hp⟩
      exact absurd hp (List.find?_eq_none.mp hf r hmem)
  | some r =>
    constructor
    · rintro -
      exact ⟨r, List.mem_of_find?_eq_some hf, List.find?_some hf⟩
    · rintro -
      exact ⟨r.content_id, rfl⟩

/-- The File branch of get_content_id reduced to its first-match lookup:
the match predicate does not involve the range bounds (they appear only in
the NoObject message). -/
theorem get_content_id_file_red (cv : Nat) (sv nv : String)
    (mi ma : Option Int) (st : CStore) :
    get_content_id (some cv) (some sv) (some nv) (some ContentType.File) mi ma st
      = (match st.rows.find?
          (fun r => fileMatch (some cv) (some sv) (some nv)
            ContentType.File.value r) with
        | some r => Except.ok r.content_id
        | none => Except.error (IddsErr.noObject
            (noObjectMsg (some cv) (some sv) (some nv)
              ((some ContentType.File).map ContentType.value) mi ma))) := rfl

/-- C6: get_content_id with the unranged File type matches on
(coll_id, scope, name, content_type) with the range bounds excluded (the
id returned does not depend on them); with any other type it additionally
matches min_id and max_id exactly; with the type omitted it matches on
(coll_id, scope, name, min_id, max_id); and when nothing matches it raises
NoObject instead of returning an id. -/
theorem get_content_id_identity_match (cv : Nat) (sv nv : String) (a b : Int)
    (mi ma mi2 ma2 : Option Int) (ct : ContentType) (st : CStore) :
    (∀ id : Nat,
      get_content_id (some cv) (some sv) (some nv) (some ContentType.File) mi ma st
          = Except.ok id
        ↔ get_content_id (some cv) (some sv) (some nv) (some ContentType.File)
            mi2 ma2 st = Except.ok id)
    ∧ ((∃ id, get_content_id (some cv) (some sv) (some nv) (some ContentType.File)
          mi ma st = Except.ok id)
      ↔ ∃ r ∈ st.rows, r.coll_id = some cv ∧ r.scope = some sv ∧ r.name = some nv
          ∧ r.content_type = some ContentType.File.value)
    ∧ (ct ≠ ContentType.File →
      ((∃ id, get_content_id (some cv) (some sv) (some nv) (some ct)
            (some a) (some b) st = Except.ok id)
        ↔ ∃ r ∈ st.rows, r.coll_id = some cv ∧ r.scope = some sv ∧ r.name = some nv
            ∧ r.content_type = some ct.value ∧ r.min_id = some a ∧ r.max_id = some b))
    ∧ ((∃ id, get_content_id (some cv) (some sv) (some nv) none (some a) (some b) st
          = Except.ok id)
      ↔ ∃ r ∈ st.rows, r.coll_id = some cv ∧ r.scope = some sv ∧ r.name = some nv
          ∧ r.min_id = some a ∧ r.max_id = some b)
    ∧ (∀ (c : Option Nat) (s n : Option String) (ctype : Option ContentType)
        (mi3 ma3 : Option Int),
      (∃ id, get_content_id c s n ctype mi3 ma3 st = Except.ok id)
        ∨ get_content_id c s n ctype mi3 ma3 st
            = Except.error (IddsErr.noObject
                (noObjectMsg c s n (ctype.map ContentType.value) mi3 ma3))) := by
  refine ⟨?_, ?_, ?_, ?_, ?_⟩
  · intro id
    rw [get_content_id_file_red cv sv nv mi ma st,
      get_content_id_file_red cv sv nv mi2 ma2 st]
    cases hf : st.rows.find?
        (fun r => fileMatch (some cv) (some sv) (some nv)
          ContentType.File.value r) <;> simp
  · rw [get_content_id_file_red cv sv nv mi ma st,
      findOk_iff _ _ _ (by intro id h; exact absurd h (by simp))]
    simp only [fileMatch_iff]
  · intro hct
    have hv : ¬ (ct.value = ContentType.File.value) := by
      simpa [contentType_value_file_iff] using hct
    have hred : get_content_id (some cv) (some sv) (some nv) (some ct)
        (some a) (some b) st
        = (match st.rows.find?
            (fun r => rangedMatch (some cv) (some sv) (some nv) ct.value
              (some a) (some b) r) with
          | some r => Except.ok r.content_id
          | none => Except.error (IddsErr.noObject
              (noObjectMsg (some cv) (some sv) (some nv)
                ((some ct).map ContentType.value) (some a) (some b)))) := by
      simp only [get_content_id, if_neg hv]
    rw [hred, findOk_iff _ _ _ (by intro id h; exact absurd h (by simp))]
    simp only [rangedMatch_iff]
  · have hred : get_content_id (some cv) (some sv) (some nv) none
        (some a) (some b) st
        = (match st.rows.find?
            (fun r => keyMatch (some cv) (some sv) (some nv)
              (some a) (some b) r) with
          | some r => Except.ok r.content_id
          | none => Except.error (IddsErr.noObject
              (noObjectMsg (some cv) (some sv) (some nv)
                (Option.map ContentType.value none) (some a) (some b)))) := rfl
    rw [hred, findOk_iff _ _ _ (by intro id h; exact absurd h (by simp))]
    simp only [keyMatch_iff]
  · intro c s n ctype mi3 ma3
    cases ctype with
    | none =>
      cases hf : st.rows.find? (fun r => keyMatch c s n mi3 ma3 r) with
      | some r =>
        exact Or.inl ⟨r.content_id, by simp only [get_content_id, hf]⟩
      | none =>
        exact Or.inr (by simp only [get_content_id, hf])
    | some ct2 =>
      by_cases hv : ct2.value = ContentType.File.value
      · cases hf : st.rows.find? (fun r => fileMatch c s n ct2.value r) with
        | some r =>
          exact Or.inl ⟨r.content_id, by simp only [get_content_id, if_pos hv, hf]⟩
        | none =>
          exact Or.inr (by simp only [get_content_id, if_pos hv, hf])
      · cases hf : st.rows.find?
            (fun r => rangedMatch c s n ct2.value mi3 ma3 r) with
        | some r =>
          exact Or.inl ⟨r.content_id, by simp only [get_content_id, if_neg hv, hf]⟩
        | none =>
          exact Or.inr (by simp only [get_content_id, if_neg hv, hf])

/-- Witness for C6: a ranged lookup on a concrete store with one Event row
matching the full identity key returns an id. -/
theorem get_content_id_identity_match_witness :
    ∃ id, get_content_id (some 1) (some "s") (some "n") (some ContentType.Event)
        (some 0) (some 3) c6store = Except.ok id :=
  ((get_content_id_identity_match 1 "s" "n" 0 3 none none none none
      ContentType.Event c6store).2.2.1 (by decide)).mpr
    ⟨c6row, by simp [c6store], by simp [c6row, ContentType.value]⟩

/-- ContentType(value) reconstructs the enum member the value came from. -/
theorem contentTypeFromValue_value (ct : ContentType) :
    contentTypeFromValue ct.value = some ct := by
  cases ct <;> rfl

/-- ContentStatus(value) reconstructs the enum member the value came from. -/
theorem contentStatusFromValue_value (cst : ContentStatus) :
    contentStatusFromValue cst.value = some cst := by
  cases cst <;> rfl

/-- Reading back the stored form of a metadata value gives the value that
was supplied; absent metadata stays absent. -/
theorem readMeta_storeMeta (meta : Option Meta) :
    readMeta (storeMeta meta) = meta := by
  cases meta with
  | none => rfl
  | some m =>
    by_cases hm : m.truthy
    · simp [storeMeta, readMeta, hm, jdumps, jloads]
    · simp [storeMeta, readMeta, hm]

/-- A first-match lookup skips a prefix on which the predicate fails. -/
theorem find?_append_false {α : Type} (p : α → Bool) (l1 l2 : List α)
    (h : ∀ y ∈ l1, p y = false) : (l1 ++ l2).find? p = l2.find? p := by
  induction l1 with
  | nil => rfl
  | cons x xs ih =>
    rw [List.cons_append, List.find?_cons_of_neg _ (by simp [h x (by simp)])]
    exact ih (fun y hy => h y (by simp [hy]))

/-- C8: a content record inserted by add_content and read back by
get_content under its generated id returns a record equal on every supplied
field, with content_type and status reconstructed to the supplied enum
members and content_metadata parsed back to the supplied structure; absent
metadata is returned as absent. -/
theorem content_add_get_roundtrip (coll_id : Nat) (scope name : String)
    (min_id max_id : Option Int) (ct : ContentType) (cst : ContentStatus)
    (bytes : Int) (md5 adler32 : Option String) (pid sid : Option Nat)
    (retries : Nat) (path : Option String) (exp : Option Int)
    (meta : Option Meta) (st : CStore)
    (hfresh : ∀ r ∈ st.rows, r.content_id < st.next_id)
    (hpos : 0 < st.next_id) :
    ∃ st', add_content none coll_id scope name min_id max_id ct cst bytes md5
        adler32 pid sid retries path exp meta true st
        = Except.ok (some st.next_id, st')
      ∧ get_content (some st.next_id) none none none none none none st'
        = Except.ok
            { content_id := st.next_id, coll_id := some coll_id,
              scope := some scope, name := some name, min_id := min_id,
              max_id := max_id, content_type := some ct, status := some cst,
              bytes := bytes, md5 := md5, adler32 := adler32,
              processing_id := pid, storage_id := sid, retries := retries,
              path := path, expired_at := exp, content_metadata := meta } := by
  refine ⟨_, rfl, ?_⟩
  have hne : ¬ (st.next_id = 0) := by omega
  simp only [get_content, if_neg hne]
  rw [find?_append_false _ st.rows _
    (fun y hy => by simp only [decide_eq_false_iff_not]; exact Nat.ne_of_lt (hfresh y hy))]
  rw [List.find?_cons_of_pos _ (by simp)]
  simp only [rowToOut, rowToOutStatus, mkOut, contentTypeFromValue_value,
    contentStatusFromValue_value, readMeta_storeMeta]

/-- Witness for C8: the round-trip on a concrete record and an empty store.
-/
theorem content_add_get_roundtrip_witness :
    ∃ st', add_content none 1 "sc" "nm" (some 0) (some 9) ContentType.File
        ContentStatus.New 42 (some "m") none (some 7) none 2 (some "p")
        (some 1000) (some (Meta.obj [("k", 5)])) true { }
        = Except.ok (some 1, st')
      ∧ get_content (some 1) none none none none none none st'
        = Except.ok
            { content_id := 1, coll_id := some 1, scope := some "sc",
              name := some "nm", min_id := some 0, max_id := some 9,
              content_type := some ContentType.File,
              status := some ContentStatus.New,
              bytes := 42, md5 := some "m", adler32 := none,
              processing_id := some 7, storage_id := none, retries := 2,
              path := some "p", expired_at := some 1000,
              content_metadata := some (Meta.obj [("k", 5)]) } :=
  content_add_get_roundtrip 1 "sc" "nm" (some 0) (some 9) ContentType.File
    ContentStatus.New 42 (some "m") none (some 7) none 2 (some "p")
    (some 1000) (some (Meta.obj [("k", 5)])) { } (by decide) (by decide)

end Idds
